import Mathlib

/-!
Verification of the marketing-assistant client (frontend/src/App.jsx,
components/Settings.jsx, components/CsvUpload.jsx) and of the spec's
streaming event emitter.

JavaScript values exchanged with the server are modelled by a small JSON
value type; browser builtins (JSON.parse, localStorage, fetch) are modelled
as explicit parameters or association lists, so every client handler becomes
a pure function from its inputs and the ambient response to the next
component state.
-/

namespace MarketingClient

/-- JS `str.split(sep)` on the character list: every separator occurrence
cuts, an empty string yields one empty group, a trailing separator yields a
trailing empty group. -/
def jsSplit (sep : Char) : List Char → List (List Char)
  | [] => [[]]
  | c :: rest =>
    let r := jsSplit sep rest
    if c = sep then [] :: r
    else
      match r with
      | [] => [[c]]
      | g :: gs => (c :: g) :: gs

/-- JS `chunk.split('\n')`. -/
def jsSplitLines (s : String) : List String :=
  (jsSplit '\n' s.data).map String.mk

/-- JS `s.startsWith(pre)`. -/
def jsStartsWith (s pre : String) : Bool :=
  pre.data.isPrefixOf s.data

/-- JS `s.endsWith(suffix)`. -/
def jsEndsWith (s sfx : String) : Bool :=
  sfx.data.isSuffixOf s.data

/-- JS `s.slice(n)`. -/
def jsDrop (s : String) (n : Nat) : String :=
  String.mk (s.data.drop n)

/-- JSON values, as produced by JSON.parse and consumed by the client. -/
inductive Json where
  | jnull
  | jbool (b : Bool)
  | jnum (n : Int)
  | jstr (s : String)
  | jarr (elems : List Json)
  | jobj (fields : List (String × Json))
deriving Repr

/-- The settings object the App holds: `{ apiKey, model }` (App.jsx line 22,
Settings.jsx `onSettingsChange` payload). -/
structure GenSettings where
  apiKey : String
  model : String
deriving Repr, DecidableEq

/-- The React state of the App component (App.jsx lines 17-22):
`summary` (the parsed JSON object returned by /upload-csv), `content`,
`loading`, `loadingStatus`, `error`, plus the settings lifted from the
Settings child. A `summary` is kept as the field list of the JSON object so
that the spread `{...summary, ...}` in handleGenerate is expressible. -/
structure ClientState where
  summary : Option (List (String × Json))
  content : Option Json
  loading : Bool
  loadingStatus : String
  error : Option String
  settings : GenSettings
deriving Repr

/-- The initial App state (App.jsx lines 17-22). -/
def initialState : ClientState :=
  { summary := none, content := none, loading := false, loadingStatus := "",
    error := none, settings := { apiKey := "", model := "gpt-5-mini-2025-08-07" } }

/-- One parsed payload of a server-sent `data: <json>` line, projected onto
the fields handleGenerate reads: `error`, `status`, `partial` (here
`charCount`, since the source's field name is a Lean keyword), `data`. An
absent field is `none` (JS `undefined`). -/
structure Payload where
  error : Option String
  status : Option String
  charCount : Option Nat
  data : Option Json
deriving Repr

/-- JS truthiness of `data.error` (App.jsx line 114): `undefined` and the
empty string are falsy, any other string is truthy. -/
def errTruthy : Option String → Bool
  | none => false
  | some e => if e = "" then false else true

/-- Rendering of `${data.partial}` in a template literal (App.jsx line 123):
an absent field renders as "undefined". -/
def renderCount : Option Nat → String
  | none => "undefined"
  | some n => toString n

/-- The status dispatch of handleGenerate (App.jsx lines 118-129), the
if/else-if chain run on a parsed payload after the error check. -/
def processStatus (s : ClientState) (p : Payload) : ClientState :=
  if p.status = some "connecting" then
    { s with loadingStatus := "Connecting to AI..." }
  else if p.status = some "generating" then
    { s with loadingStatus := "Generating marketing content..." }
  else if p.status = some "streaming" then
    { s with loadingStatus := "Generating content... (" ++ renderCount p.charCount ++ " chars)" }
  else if p.status = some "processing" then
    { s with loadingStatus := "Processing response..." }
  else if p.status = some "complete" then
    { s with content := p.data, loadingStatus := "" }
  else s

/-- The body of the per-line try block after a successful JSON.parse
(App.jsx lines 114-129): a truthy `error` field throws `Error(data.error)`,
otherwise the status dispatch runs. `Except.error m` models a thrown
exception with message `m`. -/
def processPayload (s : ClientState) (p : Payload) : Except String ClientState :=
  if errTruthy p.error then Except.error ((p.error).getD "")
  else Except.ok (processStatus s p)

/-- Processing of one `data: ` line (App.jsx lines 110-134): JSON.parse of
`line.slice(6)` (modelled by the `decode` parameter; `Except.error m` is a
parse exception with message `m`), then the payload body; the surrounding
catch swallows exactly the message "Unexpected end of JSON input" and
rethrows anything else. -/
def processLine (decode : String → Except String Payload) (s : ClientState)
    (line : String) : Except String ClientState :=
  let inner : Except String ClientState :=
    match decode (jsDrop line 6) with
    | Except.ok p => processPayload s p
    | Except.error m => Except.error m
  match inner with
  | Except.ok s2 => Except.ok s2
  | Except.error m =>
      if m = "Unexpected end of JSON input" then Except.ok s else Except.error m

/-- The for-loop over the filtered lines of one chunk (App.jsx lines
110-135). A rethrown exception aborts the loop; the second component is the
escaping exception message, `none` when the loop ran to completion. -/
def processLines (decode : String → Except String Payload) (s : ClientState) :
    List String → ClientState × Option String
  | [] => (s, none)
  | l :: ls =>
    match processLine decode s l with
    | Except.ok s2 => processLines decode s2 ls
    | Except.error m => (s, some m)

/-- `chunk.split('\n').filter(line => line.startsWith('data: '))`
(App.jsx line 108). -/
def chunkLines (chunk : String) : List String :=
  (jsSplitLines chunk).filter (fun l => jsStartsWith l "data: ")

/-- The reader loop over the response chunks (App.jsx lines 103-136); an
exception escaping one chunk's line loop aborts the whole read. -/
def processChunks (decode : String → Except String Payload) (s : ClientState) :
    List String → ClientState × Option String
  | [] => (s, none)
  | c :: cs =>
    match processLines decode s (chunkLines c) with
    | (s2, none) => processChunks decode s2 cs
    | (s2, some m) => (s2, some m)

/-- JS object update `obj[k] = v` semantics used by the spread
`{...summary, api_key: ..., model: ...}` (App.jsx lines 88-92): an existing
key keeps its position and gets the new value, a new key is appended. -/
def setField : List (String × Json) → String → Json → List (String × Json)
  | [], k, v => [(k, v)]
  | e :: rest, k, v =>
    if e.1 = k then (k, v) :: rest else e :: setField rest k v

/-- The JSON body of POST /generate-content-stream (App.jsx lines 88-92):
the summary's fields spread first, then `api_key` and `model` from the
saved settings. -/
def genRequestBody (fields : List (String × Json)) (key mdl : String) :
    List (String × Json) :=
  setField (setField fields "api_key" (Json.jstr key)) "model" (Json.jstr mdl)

/-- The environment's answer to the /generate-content-stream fetch: a non-ok
response whose JSON body carried `detail` (none when `data.detail` is
falsy/absent), or an ok response delivering a list of decoded chunks. -/
inductive GenResponse where
  | httpError (detail : Option String)
  | okResp (chunks : List String)

/-- What one invocation of handleGenerate did: the final component state,
whether a fetch was issued at all, and the JSON body it carried. -/
structure GenResult where
  state : ClientState
  fetched : Bool
  request : Option (List (String × Json))
deriving Repr

/-- handleGenerate (App.jsx lines 70-143): guard clauses for a missing
summary and a missing API key, then the fetch with the spread body, the
non-ok branch, and the chunk loop; the finally block clears `loading` and
`loadingStatus`, the catch stores the escaping message in `error`. -/
def handleGenerate (decode : String → Except String Payload) (s : ClientState)
    (resp : GenResponse) : GenResult :=
  match s.summary with
  | none => { state := s, fetched := false, request := none }
  | some fields =>
    if s.settings.apiKey = "" then
      { state := { s with
          error := some "Please configure your OpenAI API key in settings first." },
        fetched := false, request := none }
    else
      let body := genRequestBody fields s.settings.apiKey s.settings.model
      let s1 := { s with loading := true, loadingStatus := "Connecting to AI...",
                         error := none }
      match resp with
      | GenResponse.httpError detail =>
          let msg := match detail with
            | some d => if d = "" then "Failed to generate content" else d
            | none => "Failed to generate content"
          { state := { s1 with error := some msg, loading := false, loadingStatus := "" },
            fetched := true, request := some body }
      | GenResponse.okResp chunks =>
          match processChunks decode s1 chunks with
          | (s2, none) =>
              { state := { s2 with loading := false, loadingStatus := "" },
                fetched := true, request := some body }
          | (s2, some m) =>
              { state := { s2 with error := some m, loading := false, loadingStatus := "" },
                fetched := true, request := some body }

/-- The environment's answer to the /upload-csv fetch: a non-ok response
(status code, and `some body` when `response.json()` succeeded, where `body`
is `some d` when it carried a string `detail` field), or an ok response with
its body text. -/
inductive UploadResponse where
  | notOk (status : Nat) (body : Option (Option String))
  | okResp (text : String)

/-- handleUpload (App.jsx lines 28-68): non-ok responses raise
`data.detail || 'Failed to upload CSV'` (or `Server error: <status>` when the
body is not JSON); an empty ok body raises; otherwise JSON.parse of the body
(the `parse` parameter, returning the object's fields) becomes the summary.
The catch stores `err.message || 'An error occurred while uploading'` and
nulls the summary; the finally block clears `loading`. -/
def handleUpload (parse : String → Except String (List (String × Json)))
    (s : ClientState) (resp : UploadResponse) : ClientState :=
  let s0 := { s with loading := true, loadingStatus := "Uploading CSV...",
                     error := none, content := none }
  match resp with
  | UploadResponse.notOk status body =>
      let errorMsg :=
        match body with
        | none => "Server error: " ++ toString status
        | some detail =>
            match detail with
            | some d => if d = "" then "Failed to upload CSV" else d
            | none => "Failed to upload CSV"
      { s0 with
          error := some (if errorMsg = "" then "An error occurred while uploading" else errorMsg),
          summary := none, loading := false }
  | UploadResponse.okResp text =>
      if text = "" then
        { s0 with error := some "Empty response from server", summary := none,
                  loading := false }
      else
        match parse text with
        | Except.ok v =>
            { s0 with summary := some v, loadingStatus := "", loading := false }
        | Except.error m =>
            { s0 with
                error := some (if m = "" then "An error occurred while uploading" else m),
                summary := none, loading := false }

/-! ### Settings persistence (components/Settings.jsx) -/

/-- The browser's localStorage, as the association list of its entries. -/
def Store := List (String × String)

/-- `localStorage.getItem` (null when the key is absent). -/
def getItem : Store → String → Option String
  | [], _ => none
  | e :: rest, k => if e.1 = k then some e.2 else getItem rest k

/-- `localStorage.setItem`: overwrite in place or append. -/
def setItem : Store → String → String → Store
  | [], k, v => [(k, v)]
  | e :: rest, k, v =>
    if e.1 = k then (k, v) :: rest else e :: setItem rest k v

/-- `localStorage.removeItem`. -/
def removeItem : Store → String → Store
  | [], _ => []
  | e :: rest, k =>
    if e.1 = k then removeItem rest k else e :: removeItem rest k

/-- `x || d` on a getItem result (Settings.jsx lines 12-13): null and the
empty string both fall back to the default. -/
def orDefault (v : Option String) (d : String) : String :=
  match v with
  | none => d
  | some s => if s = "" then d else s

/-- The mount effect of the Settings component (Settings.jsx lines 11-17):
the settings loaded from localStorage, with "" and
"gpt-5-mini-2025-08-07" as the defaults. -/
def loadSettings (st : Store) : GenSettings :=
  { apiKey := orDefault (getItem st "openai_api_key") "",
    model := orDefault (getItem st "openai_model") "gpt-5-mini-2025-08-07" }

/-- handleSave (Settings.jsx lines 19-25): both fields written to
localStorage. -/
def saveSettings (st : Store) (key mdl : String) : Store :=
  setItem (setItem st "openai_api_key" key) "openai_model" mdl

/-- handleClear (Settings.jsx lines 27-33): both keys removed. -/
def clearSettings (st : Store) : Store :=
  removeItem (removeItem st "openai_api_key") "openai_model"

/-! ### CSV upload zone (components/CsvUpload.jsx) -/

/-- A selected or dropped browser File, projected onto its name. -/
structure JsFile where
  name : String
deriving Repr, DecidableEq

/-- What handleFileSelect did with the selection. -/
inductive UploadAction where
  | upload (f : JsFile)
  | alertMsg (m : String)
deriving Repr, DecidableEq

/-- handleFileSelect (CsvUpload.jsx lines 9-16): a present file whose name
ends in ".csv" is passed to onUpload, anything else only alerts. -/
def handleFileSelect : Option JsFile → UploadAction
  | some f =>
      if jsEndsWith f.name ".csv" then UploadAction.upload f
      else UploadAction.alertMsg "Please select a CSV file"
  | none => UploadAction.alertMsg "Please select a CSV file"

/-! ### The streaming event emitter (spec §§4.5-4.7) -/

/-- Modelled from the spec: the progress stages of the Streaming Generation
Client (§4.5) — the server source is not under src/. -/
inductive StageStatus where
  | connecting
  | generating
  | streaming (charCount : Nat)
  | processing
deriving Repr, DecidableEq

/-- Modelled from the spec: one StreamEvent of §3 — a stage status, the
terminal data event, or the terminal error event. -/
inductive PipeEvent where
  | statusEvt (st : StageStatus)
  | dataEvt (content : Json)
  | errorEvt (msg : String)
deriving Repr

/-- A terminal event is a data or error event (spec §3, glossary). -/
def isTerminal : PipeEvent → Bool
  | PipeEvent.statusEvt _ => false
  | PipeEvent.dataEvt _ => true
  | PipeEvent.errorEvt _ => true

/-- Modelled from the spec: how far one generation request got — success
with the throttled char counts and the validated content, or failure while
connecting, while streaming, or while parsing/validating (§§4.5, 4.6). -/
inductive GenOutcome where
  | ok (counts : List Nat) (content : Json)
  | connectFail (msg : String)
  | streamFail (counts : List Nat) (msg : String)
  | parseFail (counts : List Nat) (msg : String)

/-- Modelled from the spec: the event sequence the Event Emitter (§4.7)
flushes for one request — `connecting` immediately, `generating` on first
token, throttled `streaming(n)` events, `processing` on stream completion,
then the single terminal event; a failure ends the sequence with the error
event at its stage. -/
def emitEvents : GenOutcome → List PipeEvent
  | GenOutcome.ok counts c =>
      PipeEvent.statusEvt StageStatus.connecting ::
      PipeEvent.statusEvt StageStatus.generating ::
      (counts.map (fun n => PipeEvent.statusEvt (StageStatus.streaming n)) ++
        [PipeEvent.statusEvt StageStatus.processing, PipeEvent.dataEvt c])
  | GenOutcome.connectFail m =>
      [PipeEvent.statusEvt StageStatus.connecting, PipeEvent.errorEvt m]
  | GenOutcome.streamFail counts m =>
      PipeEvent.statusEvt StageStatus.connecting ::
      PipeEvent.statusEvt StageStatus.generating ::
      (counts.map (fun n => PipeEvent.statusEvt (StageStatus.streaming n)) ++
        [PipeEvent.errorEvt m])
  | GenOutcome.parseFail counts m =>
      PipeEvent.statusEvt StageStatus.connecting ::
      PipeEvent.statusEvt StageStatus.generating ::
      (counts.map (fun n => PipeEvent.statusEvt (StageStatus.streaming n)) ++
        [PipeEvent.statusEvt StageStatus.processing, PipeEvent.errorEvt m])

/-! ### Concrete environments used to exercise the handlers -/

/-- A JSON.parse model that never succeeds (used where the body is not
consulted). -/
def parseNever : String → Except String (List (String × Json)) :=
  fun _ => Except.error "SyntaxError"

/-- A JSON.parse model for an upload body: the text "body" parses to a small
summary object, everything else raises. -/
def parseBody : String → Except String (List (String × Json)) :=
  fun t => if t = "body" then Except.ok [("total", Json.jnum 5)] else Except.error "SyntaxError"

/-- A line decoder: the line payload "E" parses to an error event whose
message collides with the chunk-boundary message; anything else parses to a
complete event carrying the string "C". -/
def decodeSwallow : String → Except String Payload :=
  fun t =>
    if t = "E" then
      Except.ok { error := some "Unexpected end of JSON input", status := none,
                  charCount := none, data := none }
    else
      Except.ok { error := none, status := some "complete", charCount := none,
                  data := some (Json.jstr "C") }

/-- A line decoder that always yields an error event with message "boom". -/
def decodeBoom : String → Except String Payload :=
  fun _ =>
    Except.ok { error := some "boom", status := none, charCount := none, data := none }

/-- A line decoder that always raises the chunk-boundary parse failure. -/
def decodeTruncated : String → Except String Payload :=
  fun _ => Except.error "Unexpected end of JSON input"

/-- A line decoder whose every payload carries an empty error string next to
a complete status. -/
def decodeEmptyErr : String → Except String Payload :=
  fun _ =>
    Except.ok { error := some "", status := some "complete", charCount := none,
                data := some (Json.jstr "C2") }

/-- A line decoder for a two-event stream: the payload "A" is a connecting
status event, the payload "B" an error event with message "boom". -/
def decodeScript : String → Except String Payload :=
  fun t =>
    if t = "A" then
      Except.ok { error := none, status := some "connecting", charCount := none,
                  data := none }
    else if t = "B" then
      Except.ok { error := some "boom", status := none, charCount := none,
                  data := none }
    else Except.error "SyntaxError"

/-- A client state with a loaded summary and configured settings. -/
def loadedState : ClientState :=
  { initialState with
      summary := some [("date_range", Json.jnull)],
      settings := { apiKey := "sk-test", model := "gpt-4o-mini" } }

/-- A client state with a loaded summary but no API key. -/
def keylessState : ClientState :=
  { initialState with summary := some [("date_range", Json.jnull)] }

/-! ### Helper lemmas -/

theorem setField_of_not_mem (l : List (String × Json)) (k : String) (v : Json)
    (h : k ∉ l.map Prod.fst) : setField l k v = l ++ [(k, v)] := by
  induction l with
  | nil => rfl
  | cons e rest ih =>
    simp only [List.map_cons, List.mem_cons] at h
    push_neg at h
    obtain ⟨h1, h2⟩ := h
    simp [setField, Ne.symm h1, ih h2]

theorem getItem_setItem_self (st : Store) (k v : String) :
    getItem (setItem st k v) k = some v := by
  induction st with
  | nil => simp [setItem, getItem]
  | cons e rest ih =>
    by_cases h : e.1 = k
    · simp [setItem, getItem, h]
    · simp [setItem, getItem, h, ih]

theorem getItem_setItem_other (st : Store) (k k2 v : String) (h : k2 ≠ k) :
    getItem (setItem st k2 v) k = getItem st k := by
  induction st with
  | nil => simp [setItem, getItem, h]
  | cons e rest ih =>
    by_cases he : e.1 = k2
    · simp [setItem, getItem, he, h]
    · simp only [setItem, if_neg he, getItem]
      by_cases hk : e.1 = k
      · simp [hk]
      · simp [hk, ih]

theorem getItem_removeItem_self (st : Store) (k : String) :
    getItem (removeItem st k) k = none := by
  induction st with
  | nil => simp [removeItem, getItem]
  | cons e rest ih =>
    by_cases h : e.1 = k
    · simp [removeItem, h, ih]
    · simp [removeItem, getItem, h, ih]

theorem getItem_removeItem_other (st : Store) (k k2 : String) (h : k2 ≠ k) :
    getItem (removeItem st k2) k = getItem st k := by
  induction st with
  | nil => simp [removeItem]
  | cons e rest ih =>
    by_cases he : e.1 = k2
    · have : e.1 ≠ k := by rw [he]; exact h
      simp [removeItem, getItem, he, this, ih, h]
    · simp only [removeItem, if_neg he, getItem]
      by_cases hk : e.1 = k
      · simp [hk]
      · simp [hk, ih]

theorem orDefault_some_self (s : String) : orDefault (some s) "" = s := by
  by_cases h : s = "" <;> simp [orDefault, h]

theorem processLines_ok_append (decode : String → Except String Payload)
    (lpre : List String) :
    ∀ (s s3 : ClientState), processLines decode s lpre = (s3, none) →
      ∀ rest, processLines decode s (lpre ++ rest) = processLines decode s3 rest := by
  induction lpre with
  | nil =>
    intro s s3 h rest
    have hs : s = s3 := by simpa [processLines] using h
    rw [List.nil_append, hs]
  | cons l ls ih =>
    intro s s3 h rest
    rw [List.cons_append]
    rcases hres : processLine decode s l with m | s1
    · simp [processLines, hres] at h
    · simp only [processLines, hres] at h ⊢
      exact ih s1 s3 h rest

theorem processChunks_ok_append (decode : String → Except String Payload)
    (csPre : List String) :
    ∀ (s s2 : ClientState), processChunks decode s csPre = (s2, none) →
      ∀ csRest, processChunks decode s (csPre ++ csRest) = processChunks decode s2 csRest := by
  induction csPre with
  | nil =>
    intro s s2 h csRest
    have hs : s = s2 := by simpa [processChunks] using h
    rw [List.nil_append, hs]
  | cons c cs ih =>
    intro s s2 h csRest
    rw [List.cons_append]
    rcases hres : processLines decode s (chunkLines c) with ⟨s1, m⟩
    rcases m with - | m
    · simp only [processChunks, hres] at h ⊢
      exact ih s1 s2 h csRest
    · simp [processChunks, hres] at h

/-! ### Claim theorems -/

/-- C1: a stream payload with status "complete" (and, per the StreamEvent
shape, no error field) sets the displayed content to exactly the payload's
`data` field and clears the loading status; a payload with any other status
never changes the content. -/
theorem complete_event_sets_content (s : ClientState) (p : Payload) :
    (p.error = none → p.status = some "complete" →
      processPayload s p =
        Except.ok { s with content := p.data, loadingStatus := "" }) ∧
    (p.status ≠ some "complete" → ∀ s2, processPayload s p = Except.ok s2 →
      s2.content = s.content) := by
  constructor
  · intro he hs
    simp [processPayload, errTruthy, he, processStatus, hs]
  · intro hs s2 h
    unfold processPayload at h
    by_cases ht : errTruthy p.error = true
    · rw [if_pos ht] at h
      exact absurd h (by simp)
    · rw [if_neg ht] at h
      injection h with h2
      rw [← h2]
      unfold processStatus
      split_ifs <;> simp_all

/-- C1 witness: a concrete complete event sets the content, and a concrete
generating event leaves it unchanged. -/
theorem complete_event_sets_content_witness :
    processPayload initialState
        { error := none, status := some "complete", charCount := none,
          data := some (Json.jstr "C") } =
      Except.ok { initialState with content := some (Json.jstr "C"), loadingStatus := "" } ∧
    (processStatus initialState
        { error := none, status := some "generating", charCount := none,
          data := some (Json.jstr "C") }).content = initialState.content := by
  constructor
  · exact (complete_event_sets_content initialState _).1 rfl rfl
  · exact (complete_event_sets_content initialState
      { error := none, status := some "generating", charCount := none,
        data := some (Json.jstr "C") }).2 (by simp) _ rfl

/-- C5: the status dispatch maps "connecting", "generating", "streaming" and
"processing" to their fixed loading messages, the streaming message carrying
the event's partial character count. -/
theorem progress_status_messages (s : ClientState) (p : Payload) (n : Nat) :
    (p.status = some "connecting" →
      (processStatus s p).loadingStatus = "Connecting to AI...") ∧
    (p.status = some "generating" →
      (processStatus s p).loadingStatus = "Generating marketing content...") ∧
    (p.status = some "streaming" → p.charCount = some n →
      (processStatus s p).loadingStatus =
        "Generating content... (" ++ toString n ++ " chars)") ∧
    (p.status = some "processing" →
      (processStatus s p).loadingStatus = "Processing response...") := by
  refine ⟨fun h => ?_, fun h => ?_, fun h hc => ?_, fun h => ?_⟩
  · simp [processStatus, h]
  · simp [processStatus, h]
  · simp [processStatus, h, hc, renderCount]
  · simp [processStatus, h]

/-- C5 witness: the four statuses at concrete payloads. -/
theorem progress_status_messages_witness :
    (processStatus initialState
      { error := none, status := some "connecting", charCount := none, data := none
      }).loadingStatus = "Connecting to AI..." ∧
    (processStatus initialState
      { error := none, status := some "generating", charCount := none, data := none
      }).loadingStatus = "Generating marketing content..." ∧
    (processStatus initialState
      { error := none, status := some "streaming", charCount := some 42, data := none
      }).loadingStatus = "Generating content... (42 chars)" ∧
    (processStatus initialState
      { error := none, status := some "processing", charCount := none, data := none
      }).loadingStatus = "Processing response..." := by
  refine ⟨?_, ?_, ?_, ?_⟩
  · exact (progress_status_messages initialState _ 0).1 rfl
  · exact (progress_status_messages initialState _ 0).2.1 rfl
  · exact (progress_status_messages initialState _ 42).2.2.1 rfl rfl
  · exact (progress_status_messages initialState _ 0).2.2.2 rfl

/-- C10: the upload callback fires exactly for a present file whose name
ends in ".csv", and with that very file; any other selection only alerts. -/
theorem csv_upload_trigger (file : Option JsFile) :
    (∀ f, file = some f →
      (handleFileSelect file = UploadAction.upload f ↔ jsEndsWith f.name ".csv" = true)) ∧
    (file = none →
      handleFileSelect file = UploadAction.alertMsg "Please select a CSV file") ∧
    ((∃ f, handleFileSelect file = UploadAction.upload f) →
      ∃ f, file = some f ∧ jsEndsWith f.name ".csv" = true) := by
  refine ⟨fun f hf => ?_, fun h => ?_, fun ⟨f, hf⟩ => ?_⟩
  · subst hf
    by_cases h : jsEndsWith f.name ".csv" = true
    · simp [handleFileSelect, h]
    · simp [handleFileSelect, h]
  · subst h; rfl
  · cases file with
    | none => simp [handleFileSelect] at hf
    | some g =>
      refine ⟨g, rfl, ?_⟩
      by_cases h : jsEndsWith g.name ".csv" = true
      · exact h
      · simp [handleFileSelect, h] at hf

/-- C10 witness: a ".csv" selection triggers the upload with that file, a
".txt" selection and a missing file do not. -/
theorem csv_upload_trigger_witness :
    handleFileSelect (some { name := "sales.csv" }) =
      UploadAction.upload { name := "sales.csv" } ∧
    handleFileSelect (some { name := "sales.txt" }) =
      UploadAction.alertMsg "Please select a CSV file" ∧
    handleFileSelect none = UploadAction.alertMsg "Please select a CSV file" := by
  refine ⟨?_, ?_, ?_⟩
  · exact ((csv_upload_trigger (some { name := "sales.csv" })).1 _ rfl).mpr (by decide)
  · decide
  · exact (csv_upload_trigger none).2.1 rfl

/-- C2 counterexample: two stream events that contain an error field yet are
neither surfaced nor terminal. An event whose error string equals
"Unexpected end of JSON input" is swallowed by the inner catch: the stream
continues and a later complete event still sets the content, with no error
escaping. An event whose error string is empty is falsy, so the status
dispatch runs and sets the content from that very event. -/
theorem error_event_verbatim_cex :
    decodeSwallow (jsDrop "data: E" 6) =
      Except.ok { error := some "Unexpected end of JSON input", status := none,
                  charCount := none, data := none } ∧
    processLines decodeSwallow initialState ["data: E", "data: F"] =
      ({ initialState with content := some (Json.jstr "C"), loadingStatus := "" },
        none) ∧
    decodeEmptyErr (jsDrop "data: Z" 6) =
      Except.ok { error := some "", status := some "complete", charCount := none,
                  data := some (Json.jstr "C2") } ∧
    processLines decodeEmptyErr initialState ["data: Z"] =
      ({ initialState with content := some (Json.jstr "C2"), loadingStatus := "" },
        none) := by
  exact ⟨rfl, rfl, rfl, rfl⟩

/-- C2 amended: at any position of the stream — after any prefix of chunks
and, within the current chunk, any prefix of lines that processed without a
throw (in particular after any run of status events) — an event whose
payload carries a non-empty error field different from "Unexpected end of
JSON input" is rethrown: the event itself changes no state, no later line is
processed, and handleGenerate displays exactly that string as the error,
with the content left as it was when the event arrived. -/
theorem error_event_surfaced_amended
    (decode : String → Except String Payload) (s : ClientState)
    (fields : List (String × Json)) (csPre : List String) (c : String)
    (csPost : List String) (lpre : List String) (line : String)
    (lrest : List String) (p : Payload) (e : String) (s2 s3 : ClientState)
    (hsum : s.summary = some fields) (hk : s.settings.apiKey ≠ "")
    (hchunks : processChunks decode
      { s with loading := true, loadingStatus := "Connecting to AI...", error := none }
      csPre = (s2, none))
    (hchunk : chunkLines c = lpre ++ line :: lrest)
    (hlines : processLines decode s2 lpre = (s3, none))
    (hd : decode (jsDrop line 6) = Except.ok p)
    (he : p.error = some e) (hne : e ≠ "")
    (hneu : e ≠ "Unexpected end of JSON input") :
    processLines decode s3 (line :: lrest) = (s3, some e) ∧
    (handleGenerate decode s
      (GenResponse.okResp (csPre ++ c :: csPost))).state.error = some e ∧
    (handleGenerate decode s
      (GenResponse.okResp (csPre ++ c :: csPost))).state.content = s3.content := by
  have hline : ∀ s1 : ClientState, processLine decode s1 line = Except.error e := by
    intro s1
    unfold processLine
    rw [hd]
    simp [processPayload, errTruthy, he, hne, hneu]
  have hraise : processLines decode s3 (line :: lrest) = (s3, some e) := by
    simp [processLines, hline]
  have hcfull : processLines decode s2 (chunkLines c) = (s3, some e) := by
    rw [hchunk, processLines_ok_append decode lpre s2 s3 hlines, hraise]
  have hfull : processChunks decode
      { s with summary := some fields, loading := true,
               loadingStatus := "Connecting to AI...", error := none }
      (csPre ++ c :: csPost) = (s3, some e) := by
    rw [← hsum]
    rw [processChunks_ok_append decode csPre _ s2 hchunks]
    simp [processChunks, hcfull]
  refine ⟨hraise, ?_, ?_⟩ <;>
    simp [handleGenerate, hsum, hk, hfull]

/-- C2 witness: a concrete two-event stream, a connecting status event
followed by the error event "boom" in the same chunk. -/
theorem error_event_surfaced_witness :
    (handleGenerate decodeScript loadedState
      (GenResponse.okResp ["data: A\ndata: B"])).state.error = some "boom" :=
  (error_event_surfaced_amended decodeScript loadedState [("date_range", Json.jnull)]
    [] "data: A\ndata: B" [] ["data: A"] "data: B" []
    { error := some "boom", status := none, charCount := none, data := none } "boom"
    { loadedState with loading := true, loadingStatus := "Connecting to AI...",
                       error := none }
    { loadedState with loading := true, loadingStatus := "Connecting to AI...",
                       error := none }
    rfl (by decide) rfl rfl rfl rfl rfl (by decide) (by decide)).2.1

/-- C8: with no summary loaded, handleGenerate returns without fetching and
without touching the state; with a summary but an empty API key, it issues
no fetch and only sets the instructive error message, leaving summary and
content unchanged. -/
theorem generate_guards (decode : String → Except String Payload)
    (s : ClientState) (resp : GenResponse) :
    (s.summary = none →
      handleGenerate decode s resp = { state := s, fetched := false, request := none }) ∧
    (s.summary ≠ none → s.settings.apiKey = "" →
      handleGenerate decode s resp =
        { state := { s with
            error := some "Please configure your OpenAI API key in settings first." },
          fetched := false, request := none }) := by
  constructor
  · intro h
    simp [handleGenerate, h]
  · intro h hk
    obtain ⟨fields, hf⟩ := Option.ne_none_iff_exists'.mp h
    simp [handleGenerate, hf, hk]

/-- C8 witness: the no-summary guard at the initial state and the
missing-key guard at a keyless loaded state. -/
theorem generate_guards_witness :
    handleGenerate decodeBoom initialState (GenResponse.okResp []) =
      { state := initialState, fetched := false, request := none } ∧
    handleGenerate decodeBoom keylessState (GenResponse.okResp []) =
      { state := { keylessState with
          error := some "Please configure your OpenAI API key in settings first." },
        fetched := false, request := none } := by
  constructor
  · exact (generate_guards decodeBoom initialState (GenResponse.okResp [])).1 rfl
  · exact (generate_guards decodeBoom keylessState (GenResponse.okResp [])).2
      (Option.some_ne_none _) rfl

/-- C9: a chunk none of whose lines starts with "data: " leaves the state
untouched and raises nothing, and a line whose payload fails to parse with
"Unexpected end of JSON input" is skipped: processing continues with the
remaining lines from the same state. -/
theorem stream_line_filtering (decode : String → Except String Payload)
    (s : ClientState) (chunk : String) (line : String) (rest : List String) :
    ((∀ l ∈ jsSplitLines chunk, jsStartsWith l "data: " = false) →
      processLines decode s (chunkLines chunk) = (s, none)) ∧
    (decode (jsDrop line 6) = Except.error "Unexpected end of JSON input" →
      processLines decode s (line :: rest) = processLines decode s rest) := by
  constructor
  · intro h
    have hnil : chunkLines chunk = [] := by
      unfold chunkLines
      rw [List.filter_eq_nil_iff]
      intro a ha
      simp [h a ha]
    rw [hnil]
    rfl
  · intro hd
    have hline : processLine decode s line = Except.ok s := by
      unfold processLine
      rw [hd]
      simp
    simp [processLines, hline]

/-- C9 witness: a chunk of prose lines is ignored, and a truncated payload
line is skipped in front of a live stream. -/
theorem stream_line_filtering_witness :
    processLines decodeTruncated initialState (chunkLines "hello\nworld") =
      (initialState, none) ∧
    processLines decodeTruncated initialState ["data: truncated-json", "data: x"] =
      processLines decodeTruncated initialState ["data: x"] := by
  constructor
  · exact (stream_line_filtering decodeTruncated initialState "hello\nworld"
      "" []).1 (by decide)
  · exact (stream_line_filtering decodeTruncated initialState ""
      "data: truncated-json" ["data: x"]).2 rfl

/-- C3 counterexample: a non-ok upload response whose JSON body carries the
detail string "" is displayed as the fallback "Failed to upload CSV", not as
the detail string — `data.detail || ...` treats the empty string as absent. -/
theorem upload_detail_cex :
    (handleUpload parseNever initialState
        (UploadResponse.notOk 400 (some (some "")))).error =
      some "Failed to upload CSV" ∧
    some "Failed to upload CSV" ≠ (some "" : Option String) := by
  constructor
  · rfl
  · decide

/-- C3 amended: a non-ok upload response with a non-empty detail string
displays exactly that string and nulls the stored summary; an ok response
with a non-empty body that parses becomes the stored summary. -/
theorem upload_responses_amended
    (parse : String → Except String (List (String × Json))) (s : ClientState) :
    (∀ (status : Nat) (d : String), d ≠ "" →
      (handleUpload parse s (UploadResponse.notOk status (some (some d)))).error = some d ∧
      (handleUpload parse s (UploadResponse.notOk status (some (some d)))).summary = none) ∧
    (∀ (text : String) (v : List (String × Json)), text ≠ "" → parse text = Except.ok v →
      (handleUpload parse s (UploadResponse.okResp text)).summary = some v ∧
      (handleUpload parse s (UploadResponse.okResp text)).loadingStatus = "") := by
  constructor
  · intro status d hd
    constructor <;> simp [handleUpload, hd]
  · intro text v ht hp
    constructor <;> simp [handleUpload, ht, hp]

/-- C3 witness: a concrete 422 with detail "boom" and a concrete ok body. -/
theorem upload_responses_amended_witness :
    (handleUpload parseBody initialState
        (UploadResponse.notOk 422 (some (some "boom")))).error = some "boom" ∧
    (handleUpload parseBody initialState (UploadResponse.okResp "body")).summary =
      some [("total", Json.jnum 5)] := by
  constructor
  · exact ((upload_responses_amended parseBody initialState).1 422 "boom" (by decide)).1
  · exact ((upload_responses_amended parseBody initialState).2 "body" _ (by decide) rfl).1

/-- C4: when a summary is loaded, the key is configured and the summary's
object has no api_key/model fields of its own, the body handleGenerate sends
is exactly the summary's fields followed by api_key and model from the saved
settings — nothing else. -/
theorem generate_request_body (decode : String → Except String Payload)
    (s : ClientState) (resp : GenResponse) (fields : List (String × Json))
    (hs : s.summary = some fields) (hk : s.settings.apiKey ≠ "")
    (h1 : "api_key" ∉ fields.map Prod.fst) (h2 : "model" ∉ fields.map Prod.fst) :
    (handleGenerate decode s resp).fetched = true ∧
    (handleGenerate decode s resp).request =
      some (fields ++ [("api_key", Json.jstr s.settings.apiKey),
        ("model", Json.jstr s.settings.model)]) := by
  have hbody : genRequestBody fields s.settings.apiKey s.settings.model =
      fields ++ [("api_key", Json.jstr s.settings.apiKey),
        ("model", Json.jstr s.settings.model)] := by
    unfold genRequestBody
    rw [setField_of_not_mem _ _ _ h1, setField_of_not_mem, List.append_assoc]
    · rfl
    · simp only [List.map_append, List.mem_append]
      rintro (hm | hm)
      · exact h2 hm
      · simp at hm
  unfold handleGenerate
  rw [hs]
  cases resp with
  | httpError detail => simp [hk, hbody]
  | okResp chunks =>
    simp only [hk, if_neg hk, hbody]
    rcases hpc : processChunks decode
      { s with summary := some fields, loading := true,
               loadingStatus := "Connecting to AI...", error := none }
      chunks with ⟨s2, m⟩
    cases m <;> simp [hpc, hbody]

/-- C4 witness: the body at a concrete loaded state. -/
theorem generate_request_body_witness :
    (handleGenerate decodeBoom loadedState (GenResponse.httpError none)).request =
      some [("date_range", Json.jnull), ("api_key", Json.jstr "sk-test"),
        ("model", Json.jstr "gpt-4o-mini")] :=
  (generate_request_body decodeBoom loadedState (GenResponse.httpError none)
    [("date_range", Json.jnull)] rfl (by decide) (by decide) (by decide)).2

/-- C7 counterexample: saving an empty model string and remounting does not
round-trip — `getItem || default` turns the stored "" back into the default
model. -/
theorem settings_roundtrip_cex :
    (loadSettings (saveSettings [] "sk-test" "")).model = "gpt-5-mini-2025-08-07" ∧
    "gpt-5-mini-2025-08-07" ≠ "" := by
  constructor
  · rfl
  · decide

/-- C7 amended: saving and remounting round-trips whenever the saved model
is non-empty (an empty saved model reloads as the default); with nothing
saved the defaults are the empty key and "gpt-5-mini-2025-08-07", and
clearing restores exactly those defaults. -/
theorem settings_roundtrip_amended :
    (∀ (st : Store) (k m : String), m ≠ "" →
      loadSettings (saveSettings st k m) = { apiKey := k, model := m }) ∧
    loadSettings ([] : Store) = { apiKey := "", model := "gpt-5-mini-2025-08-07" } ∧
    (∀ st : Store, loadSettings (clearSettings st) =
      { apiKey := "", model := "gpt-5-mini-2025-08-07" }) := by
  refine ⟨fun st k m hm => ?_, rfl, fun st => ?_⟩
  · unfold loadSettings saveSettings
    rw [getItem_setItem_other _ _ _ _ (by decide), getItem_setItem_self,
      getItem_setItem_self, orDefault_some_self]
    simp [orDefault, hm]
  · unfold loadSettings clearSettings
    rw [getItem_removeItem_other _ _ _ (by decide), getItem_removeItem_self,
      getItem_removeItem_self]
    rfl

/-- C7 witness: a concrete save of a key and a non-empty model reloads
identically, and clearing a populated store restores the defaults. -/
theorem settings_roundtrip_amended_witness :
    loadSettings (saveSettings [] "sk-live" "gpt-4o") =
      { apiKey := "sk-live", model := "gpt-4o" } ∧
    loadSettings (clearSettings (saveSettings [] "sk-live" "gpt-4o")) =
      { apiKey := "", model := "gpt-5-mini-2025-08-07" } := by
  constructor
  · exact settings_roundtrip_amended.1 [] "sk-live" "gpt-4o" (by decide)
  · exact settings_roundtrip_amended.2.2 (saveSettings [] "sk-live" "gpt-4o")

/-- C6 (emitter modelled from the spec): every generation outcome produces a
stream with exactly one terminal event, placed after all stage-transition
events, with nothing after it. -/
theorem stream_single_terminal_event (o : GenOutcome) :
    (emitEvents o).countP isTerminal = 1 ∧
    ∃ pre lastE, emitEvents o = pre ++ [lastE] ∧ isTerminal lastE = true ∧
      ∀ e ∈ pre, isTerminal e = false := by
  have h : ∃ pre lastE, emitEvents o = pre ++ [lastE] ∧ isTerminal lastE = true ∧
      ∀ e ∈ pre, isTerminal e = false := by
    cases o with
    | ok counts c =>
      refine ⟨PipeEvent.statusEvt StageStatus.connecting ::
        PipeEvent.statusEvt StageStatus.generating ::
        (counts.map (fun n => PipeEvent.statusEvt (StageStatus.streaming n)) ++
          [PipeEvent.statusEvt StageStatus.processing]),
        PipeEvent.dataEvt c, by simp [emitEvents], rfl, ?_⟩
      intro e he
      simp only [List.mem_cons, List.mem_append, List.mem_map,
        List.not_mem_nil, or_false] at he
      rcases he with rfl | rfl | ⟨n, -, rfl⟩ | rfl <;> rfl
    | connectFail m =>
      exact ⟨[PipeEvent.statusEvt StageStatus.connecting], PipeEvent.errorEvt m,
        rfl, rfl, by rintro e he; simp only [List.mem_singleton] at he; rw [he]; rfl⟩
    | streamFail counts m =>
      refine ⟨PipeEvent.statusEvt StageStatus.connecting ::
        PipeEvent.statusEvt StageStatus.generating ::
        counts.map (fun n => PipeEvent.statusEvt (StageStatus.streaming n)),
        PipeEvent.errorEvt m, by simp [emitEvents], rfl, ?_⟩
      intro e he
      simp only [List.mem_cons, List.mem_map] at he
      rcases he with rfl | rfl | ⟨n, -, rfl⟩ <;> rfl
    | parseFail counts m =>
      refine ⟨PipeEvent.statusEvt StageStatus.connecting ::
        PipeEvent.statusEvt StageStatus.generating ::
        (counts.map (fun n => PipeEvent.statusEvt (StageStatus.streaming n)) ++
          [PipeEvent.statusEvt StageStatus.processing]),
        PipeEvent.errorEvt m, by simp [emitEvents], rfl, ?_⟩
      intro e he
      simp only [List.mem_cons, List.mem_append, List.mem_map,
        List.not_mem_nil, or_false] at he
      rcases he with rfl | rfl | ⟨n, -, rfl⟩ | rfl <;> rfl
  refine ⟨?_, h⟩
  obtain ⟨pre, lastE, heq, hterm, hpre⟩ := h
  rw [heq, List.countP_append]
  have hz : pre.countP isTerminal = 0 :=
    List.countP_eq_zero.mpr (fun a ha => by simp [hpre a ha])
  simp [hz, List.countP_cons, hterm]

end MarketingClient
